import Mathlib

set_option maxRecDepth 100000

/-
  Verification of the TruthCore v1 claim-analysis pipeline (src/main.py)
  against its natural-language specification.

  Shallow embedding conventions:
  - Python floats are modelled as rationals.
  - A Python value produced by json.loads is modelled by the inductive Json.
  - Code that can raise is modelled with Except String (the string is the
    exception detail that ends up interpolated into status messages).
  - The external capabilities (HTTP GET of the article, the xAI chat
    completion, the SerpAPI search call) are modelled as functions supplied
    in an environment record: each returns Except String of its result,
    the error case covering any exception raised by the call
    (timeouts, connection errors, raise_for_status, malformed bodies).
-/

namespace TruthCore

/-- A JSON value as produced by json.loads: null, booleans, numbers
(modelled as rationals), strings, arrays and objects (key-value lists,
in source order; lookup takes the last binding, matching dict overwrite
semantics of repeated keys). -/
inductive Json where
  | null : Json
  | bool : Bool → Json
  | num : ℚ → Json
  | str : String → Json
  | arr : List Json → Json
  | obj : List (String × Json) → Json

/-- The opening curly brace character (written via its code point). -/
def lbrace : Char := Char.ofNat 123

/-- The closing curly brace character (written via its code point). -/
def rbrace : Char := Char.ofNat 125

/-- Skip JSON whitespace. -/
def skipWs : List Char → List Char
  | [] => []
  | c :: rest =>
    if c = ' ' ∨ c = '\n' ∨ c = '\t' ∨ c = '\r' then skipWs rest else c :: rest

/-- Decode a single JSON string escape character. -/
def escapeChar (c : Char) : Option Char :=
  if c = '"' then some '"'
  else if c = '\\' then some '\\'
  else if c = '/' then some '/'
  else if c = 'n' then some '\n'
  else if c = 't' then some '\t'
  else if c = 'r' then some '\r'
  else if c = 'b' then some (Char.ofNat 8)
  else if c = 'f' then some (Char.ofNat 12)
  else none

/-- Parse the body of a JSON string after the opening quote, up to and
including the closing quote.  Returns the decoded characters and the
remaining input.  Unicode escapes are outside the modelled subset. -/
def parseStringBody : List Char → Option (List Char × List Char)
  | [] => none
  | c :: rest =>
    if c = '"' then some ([], rest)
    else if c = '\\' then
      match rest with
      | [] => none
      | e :: rest2 =>
        match escapeChar e with
        | none => none
        | some ec =>
          match parseStringBody rest2 with
          | none => none
          | some (s, r) => some (ec :: s, r)
    else
      match parseStringBody rest with
      | none => none
      | some (s, r) => some (c :: s, r)

/-- Take a maximal run of decimal digits. -/
def takeDigits : List Char → List Char × List Char
  | [] => ([], [])
  | c :: rest =>
    if c.isDigit then
      let p := takeDigits rest
      (c :: p.1, p.2)
    else ([], c :: rest)

/-- Numeric value of a digit run. -/
def digitsToNat (ds : List Char) : ℕ :=
  ds.foldl (fun acc c => 10 * acc + (c.toNat - 48)) 0

/-- Parse an optional fractional part (dot followed by digits). -/
def parseFrac : List Char → Option (ℚ × List Char)
  | [] => some (0, [])
  | c :: rest =>
    if c = '.' then
      match takeDigits rest with
      | ([], _) => none
      | (ds, r) => some ((digitsToNat ds : ℚ) / ((10 : ℚ) ^ ds.length), r)
    else some (0, c :: rest)

/-- Parse an optional exponent part, returned as the multiplier 10 ^ e. -/
def parseExp : List Char → Option (ℚ × List Char)
  | [] => some (1, [])
  | c :: rest =>
    if c = 'e' ∨ c = 'E' then
      let signParsed : Bool × List Char :=
        match rest with
        | [] => (false, [])
        | d :: r2 =>
          if d = '-' then (true, r2)
          else if d = '+' then (false, r2)
          else (false, d :: r2)
      match takeDigits signParsed.2 with
      | ([], _) => none
      | (ds, r) =>
        let e := digitsToNat ds
        some (if signParsed.1 then 1 / ((10 : ℚ) ^ e) else ((10 : ℚ) ^ e), r)
    else some (1, c :: rest)

/-- Parse a JSON number (optional minus, digits, optional fraction and
exponent) into a rational. -/
def parseNumber (cs : List Char) : Option (ℚ × List Char) :=
  let signParsed : Bool × List Char :=
    match cs with
    | [] => (false, [])
    | c :: rest => if c = '-' then (true, rest) else (false, c :: rest)
  match takeDigits signParsed.2 with
  | ([], _) => none
  | (ints, cs2) =>
    match parseFrac cs2 with
    | none => none
    | some (f, cs3) =>
      match parseExp cs3 with
      | none => none
      | some (m, cs4) =>
        let mag : ℚ := ((digitsToNat ints : ℚ) + f) * m
        some (if signParsed.1 then -mag else mag, cs4)

/-- Parse the JSON keywords true, false and null. -/
def parseKeyword (cs : List Char) : Option (Json × List Char) :=
  if cs.take 4 = ['t', 'r', 'u', 'e'] then some (.bool true, cs.drop 4)
  else if cs.take 5 = ['f', 'a', 'l', 's', 'e'] then some (.bool false, cs.drop 5)
  else if cs.take 4 = ['n', 'u', 'l', 'l'] then some (.null, cs.drop 4)
  else none

mutual

/-- Fuelled recursive-descent parser for a JSON value. -/
def parseValue : ℕ → List Char → Option (Json × List Char)
  | 0, _ => none
  | Nat.succ fuel, cs0 =>
    let cs := skipWs cs0
    match cs with
    | [] => none
    | c :: rest =>
      if c = '"' then
        match parseStringBody rest with
        | none => none
        | some (s, r) => some (.str (String.mk s), r)
      else if c = '[' then parseArrayItems fuel rest
      else if c = lbrace then parseObjectItems fuel rest
      else if c.isDigit ∨ c = '-' then
        match parseNumber (c :: rest) with
        | none => none
        | some (q, r) => some (.num q, r)
      else parseKeyword (c :: rest)

/-- Parse the items of a JSON array after the opening bracket. -/
def parseArrayItems : ℕ → List Char → Option (Json × List Char)
  | 0, _ => none
  | Nat.succ fuel, cs0 =>
    let cs := skipWs cs0
    match cs with
    | [] => none
    | c :: rest =>
      if c = ']' then some (.arr [], rest)
      else
        match parseValue fuel (c :: rest) with
        | none => none
        | some (v, r) =>
          match parseArrayRest fuel r with
          | none => none
          | some (vs, r2) => some (.arr (v :: vs), r2)

/-- Parse the continuation of a JSON array: comma-separated further items
until the closing bracket. -/
def parseArrayRest : ℕ → List Char → Option (List Json × List Char)
  | 0, _ => none
  | Nat.succ fuel, cs0 =>
    let cs := skipWs cs0
    match cs with
    | [] => none
    | c :: rest =>
      if c = ']' then some ([], rest)
      else if c = ',' then
        match parseValue fuel rest with
        | none => none
        | some (v, r) =>
          match parseArrayRest fuel r with
          | none => none
          | some (vs, r2) => some (v :: vs, r2)
      else none

/-- Parse one key-value member of a JSON object. -/
def parseMember : ℕ → List Char → Option ((String × Json) × List Char)
  | 0, _ => none
  | Nat.succ fuel, cs0 =>
    let cs := skipWs cs0
    match cs with
    | [] => none
    | c :: rest =>
      if c = '"' then
        match parseStringBody rest with
        | none => none
        | some (k, r) =>
          match skipWs r with
          | [] => none
          | d :: r2 =>
            if d = ':' then
              match parseValue fuel r2 with
              | none => none
              | some (v, r3) => some ((String.mk k, v), r3)
            else none
      else none

/-- Parse the members of a JSON object after the opening brace. -/
def parseObjectItems : ℕ → List Char → Option (Json × List Char)
  | 0, _ => none
  | Nat.succ fuel, cs0 =>
    let cs := skipWs cs0
    match cs with
    | [] => none
    | c :: rest =>
      if c = rbrace then some (.obj [], rest)
      else
        match parseMember fuel (c :: rest) with
        | none => none
        | some (kv, r) =>
          match parseObjectRest fuel r with
          | none => none
          | some (kvs, r2) => some (.obj (kv :: kvs), r2)

/-- Parse the continuation of a JSON object: comma-separated further
members until the closing brace. -/
def parseObjectRest : ℕ → List Char → Option (List (String × Json) × List Char)
  | 0, _ => none
  | Nat.succ fuel, cs0 =>
    let cs := skipWs cs0
    match cs with
    | [] => none
    | c :: rest =>
      if c = rbrace then some ([], rest)
      else if c = ',' then
        match parseMember fuel rest with
        | none => none
        | some (kv, r) =>
          match parseObjectRest fuel r with
          | none => none
          | some (kvs, r2) => some (kv :: kvs, r2)
      else none

end

/-- Model of json.loads: parse the whole string as a single JSON value,
allowing surrounding whitespace; none models json.JSONDecodeError. -/
def json_loads (s : String) : Option Json :=
  let cs := s.toList
  match parseValue (2 * cs.length + 2) cs with
  | none => none
  | some (v, r) => if skipWs r = [] then some v else none

/-- Python dict lookup on an object parsed from JSON.  Repeated keys in a
JSON object overwrite earlier ones in the resulting dict, hence the last
matching binding wins. -/
def dictGet (fields : List (String × Json)) (key : String) : Option Json :=
  ((fields.filter (fun p => p.1 == key)).getLast?).map Prod.snd

/-- Model of the pydantic Claim record of src/main.py: text (str),
confidence (float, modelled as a rational), explanation (str). -/
structure Claim where
  text : String
  confidence : ℚ
  explanation : String
deriving DecidableEq

/-- Model of the AnalyzeResponse record returned by the /analyze route. -/
structure AnalyzeResponse where
  url : String
  claims : List Claim
  overall_confidence : ℚ
  status : String
deriving DecidableEq

/-- An HTTP response as seen by requests.get: status code and body text. -/
structure HttpResponse where
  status_code : ℕ
  text : String
deriving DecidableEq

/-- The external capabilities consumed by the pipeline.  fetch models
requests.get on the article URL (error = any raised exception); soup_text
models the BeautifulSoup step joining the text of all p elements with
single spaces; llm models the chat.sample call returning content, given
the user prompt (error = any transport, auth or SDK failure, caught by
the outer handler); search models the whole SerpAPI GET including
raise_for_status and .json decoding, given the query string (error = any
exception raised up to that point). -/
structure Env where
  fetch : String → Except String HttpResponse
  soup_text : String → String
  llm : String → Except String String
  search : String → Except String Json

/-- Model of float coercion on a string (python float(s)): surrounding
whitespace stripped, then the numeric literal grammar. -/
def pyFloatOfString (s : String) : Option ℚ :=
  match parseNumber (skipWs s.toList) with
  | none => none
  | some (q, r) => if skipWs r = [] then some q else none

/-- Pydantic coercion of a JSON value into the float confidence field:
numbers pass through, numeric strings are coerced, anything else is a
validation error. -/
def coerce_float : Json → Option ℚ
  | .num q => some q
  | .str s => pyFloatOfString s
  | _ => none

/-- Build one Claim from one item of the parsed array, modelling
item subscripting followed by pydantic validation:
missing keys are KeyError, a non-object item is TypeError, a non-string
text or explanation or a non-coercible confidence is a ValidationError.
All of these propagate past the json.JSONDecodeError handler to the outer
exception handler of the route. -/
def build_claim (item : Json) : Except String Claim :=
  match item with
  | .obj fields =>
    match dictGet fields ("text") with
    | none => .error ("KeyError: text")
    | some tv =>
      match dictGet fields ("confidence") with
      | none => .error ("KeyError: confidence")
      | some cv =>
        match dictGet fields ("explanation") with
        | none => .error ("KeyError: explanation")
        | some ev =>
          match tv with
          | .str t =>
            match coerce_float cv with
            | none => .error ("ValidationError: confidence is not a valid float")
            | some conf =>
              match ev with
              | .str ex => .ok ⟨t, conf, ex⟩
              | _ => .error ("ValidationError: explanation is not a valid string")
          | _ => .error ("ValidationError: text is not a valid string")
  | _ => .error ("TypeError: item is not subscriptable")

/-- Model of the for-loop building the claims list from the value parsed
by json.loads.  Iterating a non-iterable raises TypeError; iterating a
string yields its characters and a dict yields its keys, in both cases a
nonempty one raises TypeError at the first item subscript, while an empty
one yields zero claims. -/
def build_claims : Json → Except String (List Claim)
  | .arr items => items.mapM build_claim
  | .str s =>
    if s.isEmpty then .ok [] else .error ("TypeError: string indices must be integers")
  | .obj [] => .ok []
  | .obj (_ :: _) => .error ("TypeError: string indices must be integers")
  | _ => .error ("TypeError: object is not iterable")

/-- Model of the parsing step of the route: json.loads in a try block
whose except clause catches only json.JSONDecodeError and sets claims to
the empty list; any other exception from building the claims escapes. -/
def parse_claims (claims_raw : String) : Except String (List Claim) :=
  match json_loads claims_raw with
  | none => .ok []
  | some v => build_claims v

/-- The detail string of the requests.exceptions.HTTPError raised by
raise_for_status. -/
def httpErrorDetail (code : ℕ) : String :=
  toString code ++ (if code < 500 then " Client Error" else " Server Error")

/-- Model of response.raise_for_status: raises exactly when the status
code is in the 4xx or 5xx band. -/
def raise_for_status (r : HttpResponse) : Except String HttpResponse :=
  if 400 ≤ r.status_code ∧ r.status_code < 600 then .error (httpErrorDetail r.status_code)
  else .ok r

/-- Step 1 of the route: requests.get, raise_for_status, BeautifulSoup
paragraph extraction, then truncation to the first 4000 characters. -/
def fetch_article (env : Env) (url : String) : Except String String :=
  match env.fetch url with
  | .error e => .error e
  | .ok resp =>
    match raise_for_status resp with
    | .error e => .error e
    | .ok resp2 => .ok (String.mk ((env.soup_text resp2.text).toList.take 4000))

/-- The user prompt f-string of step 2, with the article text spliced in. -/
def extraction_prompt (article_text : String) : String :=
  "\nExtract at least 3 verifiable claims from this article text. For each:\n"
    ++ "- \"text\": The exact claim statement\n"
    ++ "- \"confidence\": A float 0.0-1.0 estimating truth probability based on your knowledge (focus on core, flag minor issues)\n"
    ++ "- \"explanation\": Brief reasoning and sources if possible; suggest search terms for verification if confidence low\n"
    ++ "\nOutput ONLY a JSON array of objects. No other text.\n\nArticle: "
    ++ article_text ++ "\n        "

/-- Whether pat occurs as a contiguous run inside the character list. -/
def containsList (pat : List Char) : List Char → Bool
  | [] => pat.isEmpty
  | c :: rest => pat.isPrefixOf (c :: rest) || containsList pat rest

/-- Case-insensitive substring containment, modelling
needle in snippet.lower(). -/
def containsSub (s : String) (pat : String) : Bool :=
  containsList pat.toList s.toLower.toList

/-- The boost predicate on one snippet: confirm or true occurs in its
lowercase form. -/
def snippet_supports (snippet : String) : Bool :=
  containsSub snippet ("confirm") || containsSub snippet ("true")

/-- The evidence list comprehension over the decoded search response:
organic_results (defaulting to the empty list), first three results, the
snippet of each.  A non-dict response object, an unsliceable
organic_results value, a non-dict result, a missing snippet key, or a
non-string snippet (which would make the subsequent string join raise)
all model the exceptions the per-claim handler catches. -/
def get_snippets (j : Json) : Except String (List String) :=
  match j with
  | .obj fields =>
    match (dictGet fields ("organic_results")).getD (.arr []) with
    | .arr rs =>
      (rs.take 3).mapM (fun r =>
        match r with
        | .obj f =>
          match dictGet f ("snippet") with
          | some (.str s) => .ok s
          | some _ => .error ("TypeError: sequence item is not a str instance")
          | none => .error ("KeyError: snippet")
        | _ => .error ("TypeError: result is not subscriptable"))
    | .str s =>
      if s.isEmpty then .ok [] else .error ("TypeError: string indices must be integers")
    | _ => .error ("TypeError: object is not sliceable")
  | _ => .error ("AttributeError: object has no attribute get")

/-- One search call for one claim followed by evidence extraction; the
error case is any exception inside the per-claim try block before the
explanation is touched. -/
def search_evidence (search : String → Except String Json) (q : String) :
    Except String (List String) :=
  match search q with
  | .error e => .error e
  | .ok j => get_snippets j

/-- Step 3 body for one claim: claims with confidence at least 0.5 pass
through untouched; below the threshold the claim text is searched, the
evidence summary is appended to the explanation, and the confidence gets
a 0.3 boost clamped at 1.0 when some snippet contains confirm or true;
on any search failure the failure note is appended instead and the
confidence is left unchanged. -/
def verify_claim (search : String → Except String Json) (c : Claim) : Claim :=
  if c.confidence < 1 / 2 then
    match search_evidence search c.text with
    | .error e =>
      ⟨c.text, c.confidence, c.explanation ++ " (Search verification failed: " ++ e ++ ")"⟩
    | .ok evidence =>
      let newExpl :=
        c.explanation ++ " (Verified evidence: " ++ String.intercalate ("; ") evidence ++ ")"
      if evidence.any snippet_supports then ⟨c.text, min 1 (c.confidence + 3 / 10), newExpl⟩
      else ⟨c.text, c.confidence, newExpl⟩
  else c

/-- Step 3 over the whole claims list (the for-loop mutates each claim in
place; functionally this is a map, and the guard on a nonempty list is
semantically redundant since the loop body runs zero times on an empty
list). -/
def verify_claims (search : String → Except String Json) (claims : List Claim) : List Claim :=
  claims.map (verify_claim search)

/-- The aggregation expression of the route: mean of the confidences for
a nonempty claims list, 0.0 for an empty one. -/
def aggregate (claims : List Claim) : ℚ :=
  if claims.isEmpty then 0 else ((claims.map Claim.confidence).sum) / (claims.length : ℚ)

/-- The whole /analyze route body over the environment of external
capabilities.  Failure of step 1 returns the fetch error response; any
escaping exception of step 2 (LLM transport failure, or claim building
raising past the JSONDecodeError handler) returns the xAI error
response; otherwise verification and aggregation run and the status is
success. -/
def analyze_article (env : Env) (request_url : String) : AnalyzeResponse :=
  match fetch_article env request_url with
  | .error e => ⟨request_url, [], 0, "error: Failed to fetch article - " ++ e⟩
  | .ok article_text =>
    match env.llm (extraction_prompt article_text) with
    | .error e => ⟨request_url, [], 0, "error: xAI API failed - " ++ e⟩
    | .ok claims_raw =>
      match parse_claims claims_raw with
      | .error e => ⟨request_url, [], 0, "error: xAI API failed - " ++ e⟩
      | .ok claims =>
        let verified := verify_claims env.search claims
        ⟨request_url, verified, aggregate verified, "success"⟩

/-- The claims list as it stands right after the parsing step and before
verification, for stating properties of the extraction stage; empty on
any earlier failure. -/
def extracted_claims (env : Env) (url : String) : List Claim :=
  match fetch_article env url with
  | .error _ => []
  | .ok article_text =>
    match env.llm (extraction_prompt article_text) with
    | .error _ => []
    | .ok claims_raw =>
      match parse_claims claims_raw with
      | .error _ => []
      | .ok claims => claims

/-! Concrete scenario inputs (the LLM response strings of the testable
properties of the spec, and environments built from them). -/

/-- A fetch capability that always succeeds with a small HTML body. -/
def okFetch : String → Except String HttpResponse := fun _ => .ok ⟨200, "<p>body</p>"⟩

/-- A search capability that always fails, modelling an unavailable
search backend. -/
def noSearch : String → Except String Json := fun _ => .error ("no network")

/-- An environment whose fetch succeeds and whose LLM capability returns
the given response text. -/
def envWith (r : String) : Env := ⟨okFetch, id, fun _ => .ok r, noSearch⟩

/-- A valid JSON response whose confidence value 2.0 lies outside 0..1. -/
def rawOverflow : String := "[\x7b\"text\":\"A\",\"confidence\":2.0,\"explanation\":\"E\"\x7d]"

/-- Tolerant parse scenario 1 of the spec: a strictly valid JSON array. -/
def rawScenario1 : String := "[\x7b\"text\":\"A\",\"confidence\":0.9,\"explanation\":\"E1\"\x7d]"

/-- Tolerant parse scenario 2 of the spec: a JSON array wrapped in
leading and trailing prose. -/
def rawProse : String :=
  "Sure, here you go:\n[\x7b\"text\":\"A\",\"confidence\":0.5,\"explanation\":\"E\"\x7d]\nHope that helps!"

/-- The substring of rawProse between its first opening bracket and its
last closing bracket. -/
def rawBracket : String := "[\x7b\"text\":\"A\",\"confidence\":0.5,\"explanation\":\"E\"\x7d]"

/-- Tolerant parse scenario 3 of the spec: the legacy plain-text triplet
format. -/
def rawTriplet : String :=
  "Text: A\nConfidence: 0.7\nExplanation: E\n\nText: B\nConfidence: 0.2\nExplanation: F"

/-- Tolerant parse scenario 4 of the spec: unparseable garbage. -/
def rawGarbage : String := "not json at all"

/-- A JSON array whose first record lacks the text field while the
second record is complete. -/
def rawMissingText : String :=
  "[\x7b\"confidence\":0.5,\"explanation\":\"E\"\x7d,\x7b\"text\":\"B\",\"confidence\":0.2,\"explanation\":\"F\"\x7d]"

/-- A JSON array whose only record lacks the explanation field. -/
def rawMissingExpl : String := "[\x7b\"text\":\"A\",\"confidence\":0.5\x7d]"

/-- A valid JSON response with one low-confidence claim. -/
def rawLowConf : String := "[\x7b\"text\":\"L\",\"confidence\":0.3,\"explanation\":\"X\"\x7d]"

/-! Helper lemmas about the verification stage. -/

/-- Verification of one claim leaves the confidence unchanged unless the
boost branch runs, and the boost branch only raises it (clamped at 1). -/
theorem verify_claim_confidence_mono (search : String → Except String Json) (c : Claim) :
    c.confidence ≤ (verify_claim search c).confidence := by
  unfold verify_claim
  by_cases hlt : c.confidence < 1 / 2
  · rw [if_pos hlt]
    cases hse : search_evidence search c.text with
    | error e => exact le_refl _
    | ok evidence =>
      by_cases hb : evidence.any snippet_supports
      · simp only [hb, if_true]
        have h1 : c.confidence ≤ 1 := le_of_lt (lt_trans hlt (by norm_num))
        have h2 : c.confidence ≤ c.confidence + 3 / 10 := by linarith
        exact le_min h1 h2
      · simp only [hb, Bool.false_eq_true, if_false]
        exact le_refl _
  · rw [if_neg hlt]

/-- Claims at or above the 0.5 threshold pass through verification
untouched. -/
theorem verify_claim_pass_through (search : String → Except String Json) (c : Claim)
    (h : 1 / 2 ≤ c.confidence) : verify_claim search c = c := by
  unfold verify_claim
  rw [if_neg (not_lt.mpr h)]

/-- Verification keeps a confidence that starts inside 0..1 inside
0..1: the only change is the boost, clamped at 1 and nonnegative. -/
theorem verify_claim_bounds (search : String → Except String Json) (c : Claim)
    (h0 : 0 ≤ c.confidence) (h1 : c.confidence ≤ 1) :
    0 ≤ (verify_claim search c).confidence ∧ (verify_claim search c).confidence ≤ 1 := by
  unfold verify_claim
  by_cases hlt : c.confidence < 1 / 2
  · rw [if_pos hlt]
    cases hse : search_evidence search c.text with
    | error e => exact ⟨h0, h1⟩
    | ok evidence =>
      by_cases hb : evidence.any snippet_supports
      · simp only [hb, if_true]
        constructor
        · exact le_min (by norm_num) (by linarith)
        · exact min_le_left _ _
      · simp only [hb, if_false]
        exact ⟨h0, h1⟩
  · rw [if_neg hlt]
    exact ⟨h0, h1⟩

/-- When the search call for a low-confidence claim fails, the claim
keeps its confidence and only gains the failure note. -/
theorem verify_claim_search_error (search : String → Except String Json) (c : Claim)
    (e : String) (hlt : c.confidence < 1 / 2) (hs : search c.text = .error e) :
    verify_claim search c =
      ⟨c.text, c.confidence, c.explanation ++ " (Search verification failed: " ++ e ++ ")"⟩ := by
  unfold verify_claim
  rw [if_pos hlt]
  have hse : search_evidence search c.text = .error e := by
    unfold search_evidence
    rw [hs]
  rw [hse]

/-- The shape of the response when step 1 fails. -/
theorem analyze_fetch_error_eq (env : Env) (url e : String)
    (h : fetch_article env url = .error e) :
    analyze_article env url = ⟨url, [], 0, "error: Failed to fetch article - " ++ e⟩ := by
  unfold analyze_article
  simp only [h]

/-- The shape of the response when the LLM call itself fails. -/
theorem analyze_llm_error_eq (env : Env) (url a e : String)
    (h1 : fetch_article env url = .ok a)
    (h2 : env.llm (extraction_prompt a) = .error e) :
    analyze_article env url = ⟨url, [], 0, "error: xAI API failed - " ++ e⟩ := by
  unfold analyze_article
  simp only [h1, h2]

/-- The shape of the response when building the claims raises an
exception that escapes to the outer handler of the route. -/
theorem analyze_parse_error_eq (env : Env) (url a raw e : String)
    (h1 : fetch_article env url = .ok a)
    (h2 : env.llm (extraction_prompt a) = .ok raw)
    (h3 : parse_claims raw = .error e) :
    analyze_article env url = ⟨url, [], 0, "error: xAI API failed - " ++ e⟩ := by
  unfold analyze_article
  simp only [h1, h2, h3]

/-- The shape of the response on the all-stages-succeed path. -/
theorem analyze_success_eq (env : Env) (url a raw : String) (cs : List Claim)
    (h1 : fetch_article env url = .ok a)
    (h2 : env.llm (extraction_prompt a) = .ok raw)
    (h3 : parse_claims raw = .ok cs) :
    analyze_article env url =
      ⟨url, verify_claims env.search cs, aggregate (verify_claims env.search cs), "success"⟩ := by
  unfold analyze_article
  simp only [h1, h2, h3]

/-! Claim theorems. -/

/-- C5: whenever fetch and the LLM call succeed but the LLM response is
not parseable (json.loads fails, and the code has no further parsing
strategy), the pipeline returns the claims-empty response with
overall confidence 0 and status exactly success; no exception escapes
(the embedding is a total function). -/
theorem unparseable_response_yields_success (env : Env) (url a raw : String)
    (h1 : fetch_article env url = .ok a)
    (h2 : env.llm (extraction_prompt a) = .ok raw)
    (h3 : json_loads raw = none) :
    analyze_article env url = ⟨url, [], 0, "success"⟩ := by
  unfold analyze_article
  have hp : parse_claims raw = .ok [] := by
    unfold parse_claims
    rw [h3]
  simp only [h1, h2, hp]
  rfl

/-- C5 witness: the garbage response of tolerant parse scenario 4. -/
theorem unparseable_response_yields_success_witness :
    analyze_article (envWith rawGarbage) ("u") = ⟨"u", [], 0, "success"⟩ :=
  unparseable_response_yields_success (envWith rawGarbage) ("u") ("<p>body</p>") rawGarbage
    (by with_unfolding_all rfl)
    (by with_unfolding_all rfl)
    (by with_unfolding_all rfl)

/-- C6: in every result of the pipeline, the overall confidence is the
arithmetic mean of the claim confidences when the claims list is
nonempty, and exactly 0 when it is empty (aggregation is the pure
expression sum divided by length with an emptiness guard). -/
theorem overall_confidence_is_mean (env : Env) (url : String) :
    ((analyze_article env url).claims = [] → (analyze_article env url).overall_confidence = 0) ∧
      ((analyze_article env url).claims ≠ [] →
        (analyze_article env url).overall_confidence =
          ((analyze_article env url).claims.map Claim.confidence).sum /
            ((analyze_article env url).claims.length : ℚ)) := by
  cases hf : fetch_article env url with
  | error e =>
    rw [analyze_fetch_error_eq env url e hf]
    exact ⟨fun _ => rfl, fun h => absurd rfl h⟩
  | ok a =>
    cases hl : env.llm (extraction_prompt a) with
    | error e =>
      rw [analyze_llm_error_eq env url a e hf hl]
      exact ⟨fun _ => rfl, fun h => absurd rfl h⟩
    | ok raw =>
      cases hp : parse_claims raw with
      | error e =>
        rw [analyze_parse_error_eq env url a raw e hf hl hp]
        exact ⟨fun _ => rfl, fun h => absurd rfl h⟩
      | ok cs =>
        rw [analyze_success_eq env url a raw cs hf hl hp]
        constructor
        · intro h
          show aggregate (verify_claims env.search cs) = 0
          rw [show verify_claims env.search cs = [] from h]
          rfl
        · intro h
          show aggregate (verify_claims env.search cs) =
            ((verify_claims env.search cs).map Claim.confidence).sum /
              ((verify_claims env.search cs).length : ℚ)
          unfold aggregate
          rw [if_neg (by simpa [List.isEmpty_iff] using h)]

/-- C6 witness: a nonempty run where the mean equals the overall
confidence. -/
theorem overall_confidence_is_mean_witness :
    (analyze_article (envWith rawScenario1) ("u")).claims ≠ [] ∧
      (analyze_article (envWith rawScenario1) ("u")).overall_confidence =
        ((analyze_article (envWith rawScenario1) ("u")).claims.map Claim.confidence).sum /
          ((analyze_article (envWith rawScenario1) ("u")).claims.length : ℚ) :=
  ⟨of_decide_eq_true (by with_unfolding_all rfl),
    (overall_confidence_is_mean (envWith rawScenario1) ("u")).2
      (of_decide_eq_true (by with_unfolding_all rfl))⟩

/-- C7: when step 1 fails (the GET raises, or raise_for_status raises on
a 4xx or 5xx response), the pipeline terminates with claims empty,
overall confidence 0 and the fetch error status, and its result does not
depend on the LLM or search capabilities at all (they are arbitrary in
this statement), i.e. those stages are not invoked. -/
theorem fetch_failure_terminal (fetch : String → Except String HttpResponse)
    (soup : String → String) (llm : String → Except String String)
    (search : String → Except String Json) (url e : String)
    (h : fetch_article ⟨fetch, soup, llm, search⟩ url = .error e) :
    analyze_article ⟨fetch, soup, llm, search⟩ url =
      ⟨url, [], 0, "error: Failed to fetch article - " ++ e⟩ := by
  unfold analyze_article
  simp only [h]

/-- C7 witness: an HTTP 404 response. -/
theorem fetch_failure_terminal_witness :
    analyze_article ⟨fun _ => .ok ⟨404, "nf"⟩, id, fun _ => .ok rawScenario1, noSearch⟩ ("u") =
      ⟨"u", [], 0, "error: Failed to fetch article - " ++ ("404" ++ " Client Error")⟩ :=
  fetch_failure_terminal (fun _ => .ok ⟨404, "nf"⟩) id (fun _ => .ok rawScenario1) noSearch
    ("u") ("404" ++ " Client Error") (by with_unfolding_all rfl)

/-- C10: verification never decreases confidence: every claim leaves the
verification stage with a confidence at least its incoming one, and a
claim at or above the 0.5 threshold is returned untouched. -/
theorem verification_never_decreases (search : String → Except String Json) (c : Claim) :
    c.confidence ≤ (verify_claim search c).confidence ∧
      (1 / 2 ≤ c.confidence → verify_claim search c = c) :=
  ⟨verify_claim_confidence_mono search c, verify_claim_pass_through search c⟩

/-- C10 witness: a confident claim is untouched, so in particular its
confidence does not decrease. -/
theorem verification_never_decreases_witness :
    (⟨"A", 4 / 5, "E"⟩ : Claim).confidence ≤
        (verify_claim noSearch ⟨"A", 4 / 5, "E"⟩).confidence ∧
      verify_claim noSearch ⟨"A", 4 / 5, "E"⟩ = ⟨"A", 4 / 5, "E"⟩ :=
  ⟨(verification_never_decreases noSearch ⟨"A", 4 / 5, "E"⟩).1,
    (verification_never_decreases noSearch ⟨"A", 4 / 5, "E"⟩).2 (by norm_num)⟩

/-- C8: when the pipeline reaches verification with claims cs and the
search call for the claim at position i (below the 0.5 threshold) fails
with detail e, the final status is still success, the claims list keeps
its length, every claim is still verified independently, and the claim
at i keeps its confidence and gains exactly the failure note on its
explanation. -/
theorem per_claim_search_failure_isolated (env : Env) (url a raw : String)
    (cs : List Claim) (i : ℕ) (e : String)
    (h1 : fetch_article env url = .ok a)
    (h2 : env.llm (extraction_prompt a) = .ok raw)
    (h3 : parse_claims raw = .ok cs)
    (hi : i < cs.length)
    (hconf : cs[i].confidence < 1 / 2)
    (hsearch : env.search cs[i].text = .error e) :
    (analyze_article env url).status = "success" ∧
      (analyze_article env url).claims.length = cs.length ∧
      (∀ j : ℕ, (analyze_article env url).claims[j]? =
        (cs[j]?).map (verify_claim env.search)) ∧
      (analyze_article env url).claims[i]? =
        some ⟨cs[i].text, cs[i].confidence,
          cs[i].explanation ++ " (Search verification failed: " ++ e ++ ")"⟩ := by
  rw [analyze_success_eq env url a raw cs h1 h2 h3]
  refine ⟨rfl, ?_, ?_, ?_⟩
  · show (cs.map (verify_claim env.search)).length = cs.length
    simp
  · intro j
    show (cs.map (verify_claim env.search))[j]? = (cs[j]?).map (verify_claim env.search)
    simp
  · show (cs.map (verify_claim env.search))[i]? = _
    rw [List.getElem?_map, List.getElem?_eq_getElem hi]
    show some (verify_claim env.search cs[i]) = _
    rw [verify_claim_search_error env.search cs[i] e hconf hsearch]

/-- C8 witness: one low-confidence claim whose search call fails. -/
theorem per_claim_search_failure_isolated_witness :
    (analyze_article (envWith rawLowConf) ("u")).status = "success" ∧
      (analyze_article (envWith rawLowConf) ("u")).claims.length =
        ([⟨"L", 3 / 10, "X"⟩] : List Claim).length ∧
      (∀ j : ℕ, (analyze_article (envWith rawLowConf) ("u")).claims[j]? =
        (([⟨"L", 3 / 10, "X"⟩] : List Claim)[j]?).map
          (verify_claim (envWith rawLowConf).search)) ∧
      (analyze_article (envWith rawLowConf) ("u")).claims[0]? =
        some ⟨([⟨"L", 3 / 10, "X"⟩] : List Claim)[0].text,
          ([⟨"L", 3 / 10, "X"⟩] : List Claim)[0].confidence,
          ([⟨"L", 3 / 10, "X"⟩] : List Claim)[0].explanation ++
            " (Search verification failed: " ++ "no network" ++ ")"⟩ :=
  per_claim_search_failure_isolated (envWith rawLowConf) ("u") ("<p>body</p>") rawLowConf
    [⟨"L", 3 / 10, "X"⟩] 0 ("no network")
    (by with_unfolding_all rfl)
    (by with_unfolding_all rfl)
    (by with_unfolding_all rfl)
    (by norm_num)
    (of_decide_eq_true (by with_unfolding_all rfl))
    (by with_unfolding_all rfl)

/-- C9 counterexample: an HTTP 304 response is not in the 2xx band, yet
raise_for_status does not raise on it, so the pipeline proceeds to
extraction with the 304 body and finishes with status success instead of
a fetch error. -/
theorem non_2xx_proceeds_counterexample :
    (⟨fun _ => .ok ⟨304, "b"⟩, id, fun _ => .ok rawGarbage, noSearch⟩ : Env).fetch ("u") =
        .ok ⟨304, "b"⟩ ∧
      ¬(200 ≤ 304 ∧ 304 < 300) ∧
      analyze_article ⟨fun _ => .ok ⟨304, "b"⟩, id, fun _ => .ok rawGarbage, noSearch⟩ ("u") =
        ⟨"u", [], 0, "success"⟩ :=
  ⟨rfl, by norm_num, by with_unfolding_all rfl⟩

/-- C9 amended: the fetch stage turns exactly the 4xx and 5xx responses
into the terminal fetch-error result; other non-2xx codes (1xx, 3xx) are
not treated as fetch failures. -/
theorem http_error_band_fetch_error (env : Env) (url : String) (resp : HttpResponse)
    (hf : env.fetch url = .ok resp)
    (h4 : 400 ≤ resp.status_code) (h6 : resp.status_code < 600) :
    analyze_article env url =
      ⟨url, [], 0, "error: Failed to fetch article - " ++ httpErrorDetail resp.status_code⟩ := by
  have hrs : raise_for_status resp = .error (httpErrorDetail resp.status_code) := by
    unfold raise_for_status
    rw [if_pos ⟨h4, h6⟩]
  have hfa : fetch_article env url = .error (httpErrorDetail resp.status_code) := by
    unfold fetch_article
    simp only [hf, hrs]
  exact analyze_fetch_error_eq env url _ hfa

/-- C9 amended witness: a 404 response yields the fetch-error result. -/
theorem http_error_band_fetch_error_witness :
    analyze_article ⟨fun _ => .ok ⟨404, "nf"⟩, id, fun _ => .ok rawGarbage, noSearch⟩ ("u") =
      ⟨"u", [], 0, "error: Failed to fetch article - " ++ httpErrorDetail 404⟩ :=
  http_error_band_fetch_error ⟨fun _ => .ok ⟨404, "nf"⟩, id, fun _ => .ok rawGarbage, noSearch⟩
    ("u") ⟨404, "nf"⟩ rfl (by decide) (by decide)

/-- C1 counterexample: the LLM response with confidence 2.0 is accepted
verbatim: extraction performs no clamping, the claim reaches the result
with confidence 2, violating the 0..1 invariant. -/
theorem confidence_not_clamped_counterexample :
    ∃ c ∈ (analyze_article (envWith rawOverflow) ("u")).claims, 1 < c.confidence := by
  refine ⟨⟨"A", 2, "E"⟩, ?_, by norm_num⟩
  have h : (analyze_article (envWith rawOverflow) ("u")).claims = [⟨"A", 2, "E"⟩] := by
    with_unfolding_all rfl
  rw [h]
  exact List.mem_singleton.mpr rfl

/-- C1 amended: extraction coerces confidence to float but does not
clamp it; the 0..1 invariant holds for the final result whenever every
extracted confidence already lies in 0..1, because verification
preserves the bounds (the boost clamps at 1 and only adds a nonnegative
amount). -/
theorem confidence_bounds_preserved (env : Env) (url : String)
    (h : ∀ c ∈ extracted_claims env url, 0 ≤ c.confidence ∧ c.confidence ≤ 1) :
    ∀ c ∈ (analyze_article env url).claims, 0 ≤ c.confidence ∧ c.confidence ≤ 1 := by
  cases hf : fetch_article env url with
  | error e =>
    rw [analyze_fetch_error_eq env url e hf]
    intro c hc
    exact absurd hc (List.not_mem_nil c)
  | ok a =>
    cases hl : env.llm (extraction_prompt a) with
    | error e =>
      rw [analyze_llm_error_eq env url a e hf hl]
      intro c hc
      exact absurd hc (List.not_mem_nil c)
    | ok raw =>
      cases hp : parse_claims raw with
      | error e =>
        rw [analyze_parse_error_eq env url a raw e hf hl hp]
        intro c hc
        exact absurd hc (List.not_mem_nil c)
      | ok cs =>
        rw [analyze_success_eq env url a raw cs hf hl hp]
        have hcs : extracted_claims env url = cs := by
          unfold extracted_claims
          simp only [hf, hl, hp]
        intro c hc
        rcases List.mem_map.mp hc with ⟨c0, hc0, rfl⟩
        have hmem : c0 ∈ extracted_claims env url := by
          rw [hcs]
          exact hc0
        exact verify_claim_bounds env.search c0 (h c0 hmem).1 (h c0 hmem).2

/-- C1 amended witness: tolerant parse scenario 1, whose extracted
confidence 0.9 lies in 0..1, so the resulting claim does too. -/
theorem confidence_bounds_preserved_witness :
    0 ≤ (⟨"A", 9 / 10, "E1"⟩ : Claim).confidence ∧
      (⟨"A", 9 / 10, "E1"⟩ : Claim).confidence ≤ 1 :=
  confidence_bounds_preserved (envWith rawScenario1) ("u")
    (by
      intro c hc
      have h : extracted_claims (envWith rawScenario1) ("u") = [⟨"A", 9 / 10, "E1"⟩] := by
        with_unfolding_all rfl
      rw [h] at hc
      rw [List.mem_singleton.mp hc]
      norm_num)
    ⟨"A", 9 / 10, "E1"⟩
    (by
      have h : (analyze_article (envWith rawScenario1) ("u")).claims =
          [⟨"A", 9 / 10, "E1"⟩] := by
        with_unfolding_all rfl
      rw [h]
      exact List.mem_singleton.mpr rfl)

/-- C2 counterexample: the prose-wrapped response of tolerant parse
scenario 2: its bracket substring alone parses to one claim, but the
code has no bracket-extraction strategy, so extraction on the full
response returns the empty list instead of that claim. -/
theorem bracket_extraction_counterexample :
    parse_claims rawBracket = .ok [⟨"A", 1 / 2, "E"⟩] ∧
      parse_claims rawProse = .ok [] ∧
      (analyze_article (envWith rawProse) ("u")).claims = [] :=
  ⟨by with_unfolding_all rfl, by with_unfolding_all rfl, by with_unfolding_all rfl⟩

/-- C2 amended: the code attempts only a strict json.loads parse; every
response it cannot parse, including those containing a valid JSON array
substring, yields the empty claim sequence. -/
theorem no_bracket_fallback (raw : String) (h : json_loads raw = none) :
    parse_claims raw = .ok [] := by
  unfold parse_claims
  rw [h]

/-- C2 amended witness: the prose-wrapped response fails json.loads and
yields the empty claim list. -/
theorem no_bracket_fallback_witness : parse_claims rawProse = .ok [] :=
  no_bracket_fallback rawProse (by with_unfolding_all rfl)

/-- C3 counterexample: the legacy triplet response of tolerant parse
scenario 3 does not yield the two claims the spec describes; extraction
returns the empty list because no triplet parsing strategy exists. -/
theorem legacy_triplet_counterexample :
    parse_claims rawTriplet = .ok [] ∧
      parse_claims rawTriplet ≠ .ok [⟨"A", 7 / 10, "E"⟩, ⟨"B", 1 / 5, "F"⟩] := by
  have h : parse_claims rawTriplet = .ok [] := by with_unfolding_all rfl
  refine ⟨h, ?_⟩
  rw [h]
  intro heq
  exact List.noConfusion (Except.ok.inj heq)

/-- C3 amended: a legacy triplet response fails json.loads, so the
pipeline returns zero claims with overall confidence 0 and status
success. -/
theorem legacy_triplet_yields_empty :
    analyze_article (envWith rawTriplet) ("u") = ⟨"u", [], 0, "success"⟩ := by
  with_unfolding_all rfl

/-- C4 counterexample: a record missing text makes the whole request
fail with the xAI error status, dropping the complete second record too,
and a record missing explanation is likewise fatal instead of getting an
empty-string default. -/
theorem bad_record_aborts_counterexample :
    parse_claims rawMissingText = .error ("KeyError: text") ∧
      analyze_article (envWith rawMissingText) ("u") =
        ⟨"u", [], 0, "error: xAI API failed - KeyError: text"⟩ ∧
      (analyze_article (envWith rawMissingText) ("u")).status ≠ "success" ∧
      parse_claims rawMissingExpl = .error ("KeyError: explanation") :=
  ⟨by with_unfolding_all rfl, by with_unfolding_all rfl,
    of_decide_eq_true (by with_unfolding_all rfl), by with_unfolding_all rfl⟩

/-- C4 amended: any exception raised while building the claims from a
successfully decoded JSON value (missing text, missing explanation, or
a confidence that cannot be coerced to float) aborts the whole request:
the pipeline returns no claims at all and the xAI error status. -/
theorem parse_exception_aborts_request (env : Env) (url a raw e : String)
    (h1 : fetch_article env url = .ok a)
    (h2 : env.llm (extraction_prompt a) = .ok raw)
    (h3 : parse_claims raw = .error e) :
    analyze_article env url = ⟨url, [], 0, "error: xAI API failed - " ++ e⟩ := by
  unfold analyze_article
  simp only [h1, h2, h3]

/-- C4 amended witness: the batch with a record missing its text field. -/
theorem parse_exception_aborts_request_witness :
    analyze_article (envWith rawMissingText) ("u") =
      ⟨"u", [], 0, "error: xAI API failed - " ++ "KeyError: text"⟩ :=
  parse_exception_aborts_request (envWith rawMissingText) ("u") ("<p>body</p>")
    rawMissingText ("KeyError: text")
    (by with_unfolding_all rfl)
    (by with_unfolding_all rfl)
    (by with_unfolding_all rfl)

end TruthCore
